import Mathlib

/-!
# libjoystick: reader loop, snapshot accessors, callback slots and lifecycle

A shallow embedding of `src/Joystick.cpp`, `src/Joystick.h` and
`src/JoystickException.h`.

* The object state is the record `Joystick`; member functions are functions on it.
* Effects that leave the object (text written to `std::cerr`, callback
  invocations) and every access to one of the two snapshot vectors are appended
  to the field `trace`, oldest first.
* `std::vector::operator[]` is unchecked: a write outside `[0, size)` is undefined
  behaviour, which the reader step reports as `Control.undefined`.
* The operating system is a parameter: results of `open`, `ioctl`, `read` and
  `close` are inputs of the functions that call them. What the source leaves to the
  compilation target (signedness of `char`, width of `size_t`) is the parameter
  `Target`; the constructors of `std::vector` follow libstdc++.
* The destructor is implicitly `noexcept`; a `throw` in its body ends in
  `std::terminate`.
* Callbacks are user code. A registered callback is represented by the identity of
  the function object the shared pointer refers to; invoking it is recorded in the
  trace and is taken to return normally without touching the session.
-/

namespace joy

/-! ## `linux/joystick.h` -/

/-- Event type bit: a button changed (`#define JS_EVENT_BUTTON 0x01`). -/
def JS_EVENT_BUTTON : Nat := 0x01

/-- Event type bit: an axis moved (`#define JS_EVENT_AXIS 0x02`). -/
def JS_EVENT_AXIS : Nat := 0x02

/-- Event type bit: synthetic initial-state event (`#define JS_EVENT_INIT 0x80`). -/
def JS_EVENT_INIT : Nat := 0x80

/-- The kernel record `struct js_event`: `__u32 time; __s16 value; __u8 type; __u8 number`. -/
structure js_event where
  time : Nat
  value : Int
  type : Nat
  number : Nat
deriving DecidableEq, Repr

/-- Field ranges of a `js_event` as laid out in memory. -/
def js_event.inRange (e : js_event) : Prop :=
  e.time < 2 ^ 32 ∧ -32768 ≤ e.value ∧ e.value < 32768 ∧ e.type < 256 ∧ e.number < 256

instance (e : js_event) : Decidable e.inRange := by
  unfold js_event.inRange; infer_instance

/-- The record produced by `DEFINE_ZEROED_STRUCT(js_event, event)`. -/
def js_event.zeroed : js_event := ⟨0, 0, 0, 0⟩

/-- Bit pattern of `~x` for a 32-bit `int` operand `x`. -/
def intNot (x : Nat) : Nat := 0xFFFFFFFF - x

/-- The expression `(event.type & ~JS_EVENT_INIT)` of `Joystick::run`. -/
def maskedType (e : js_event) : Nat := e.type &&& intNot JS_EVENT_INIT

/-! ## `JoystickChangeEvent.h` -/

/-- Modelled from the spec: `JoystickChangeEvent.h` is not among the sources. An
immutable value holding a button index (unsigned) and the new pressed state. -/
structure ButtonChangeEvent where
  buttonNumber : Nat
  pressed : Bool
deriving DecidableEq, Repr

/-- Modelled from the spec: accessor of the immutable button index. -/
def ButtonChangeEvent.getButtonNumber (e : ButtonChangeEvent) : Nat := e.buttonNumber

/-- Modelled from the spec: accessor of the immutable pressed state. -/
def ButtonChangeEvent.isPressed (e : ButtonChangeEvent) : Bool := e.pressed

/-- Modelled from the spec: `JoystickChangeEvent.h` is not among the sources. An
immutable value holding an axis index (unsigned) and the new signed value in raw
driver units. -/
structure AxisChangeEvent where
  axisNumber : Nat
  value : Int
deriving DecidableEq, Repr

/-- Modelled from the spec: accessor of the immutable axis index. -/
def AxisChangeEvent.getAxisNumber (e : AxisChangeEvent) : Nat := e.axisNumber

/-- Modelled from the spec: accessor of the immutable axis value. -/
def AxisChangeEvent.getValue (e : AxisChangeEvent) : Int := e.value

/-! ## Exceptions -/

/-- Exceptions thrown in the member functions. `JoystickException` carries
`_message`; the other three are the ones the constructors of `std::vector` and the
allocator behind them throw. -/
inductive Exception where
  | JoystickException (message : String)
  | length_error
  | bad_alloc
  | bad_array_new_length
deriving DecidableEq, Repr

/-- The member `JoystickException::what()`, and the class name for the others. -/
def Exception.what : Exception → String
  | .JoystickException m => "JoystickException: " ++ m
  | .length_error => "std::length_error"
  | .bad_alloc => "std::bad_alloc"
  | .bad_array_new_length => "std::bad_array_new_length"

/-! ## Locks -/

/-- A `boost::unique_lock<boost::mutex>` inside a member function of `Joystick`:
whether it is associated with the member `_mutex` (the only mutex of the class), and
whether it owns the lock. -/
structure unique_lock where
  associated : Bool
  is_locked : Bool
deriving DecidableEq, Repr

/-- The default constructor `boost::unique_lock<boost::mutex> lock;`: no associated
mutex, nothing locked. -/
def unique_lock.default : unique_lock := ⟨false, false⟩

/-- Whether `_mutex` is held, given the lock objects in scope at a statement. -/
def holdsMutex (inScope : List unique_lock) : Bool :=
  inScope.any (fun l => l.associated && l.is_locked)

/-! ## Observable effects -/

/-- Which snapshot vector an access touches. -/
inductive Snapshot where
  | buttons
  | axes
deriving DecidableEq, Repr

/-- One entry of the trace. -/
inductive Effect where
  | cerr (text : String)
  | buttonCallback (target : Nat) (event : ButtonChangeEvent)
  | axisCallback (target : Nat) (event : AxisChangeEvent)
  | read (vector : Snapshot) (index : Nat) (mutexHeld : Bool)
  | write (vector : Snapshot) (index : Nat) (mutexHeld : Bool)
deriving DecidableEq, Repr

/-- The button callback invocations of a trace, in order. -/
def buttonCalls : List Effect → List (Nat × ButtonChangeEvent)
  | [] => []
  | .buttonCallback t e :: rest => (t, e) :: buttonCalls rest
  | _ :: rest => buttonCalls rest

/-- The axis callback invocations of a trace, in order. -/
def axisCalls : List Effect → List (Nat × AxisChangeEvent)
  | [] => []
  | .axisCallback t e :: rest => (t, e) :: axisCalls rest
  | _ :: rest => axisCalls rest

/-! ## The class `Joystick` -/

/-- The data members of `joy::Joystick` (`Joystick.h`), the interruption flag of
`_thread`, and the trace of effects. A callback slot is `none` for a null
`std::shared_ptr` and `some t` when it refers to the function object `t`. -/
structure Joystick where
  _joystick_fd : Int
  _buttonValues : List Bool
  _axisValues : List Int
  _buttonCallback : Option Nat
  _axisCallback : Option Nat
  interruptRequested : Bool
  trace : List Effect
deriving DecidableEq, Repr

/-- Properties of the compilation target that the source leaves open: whether plain
`char` is signed, the width of `size_t` (on Linux also the width of `unsigned long`
and one more than that of `ptrdiff_t`), and the largest request in bytes that
`::operator new` can satisfy. The standard library is libstdc++. -/
structure Target where
  charSigned : Bool
  sizeBits : Nat
  maxAllocBytes : Nat
deriving DecidableEq, Repr

/-- Linux on x86-64 with GCC and libstdc++: `char` is signed, `size_t` has 64 bits,
the user address space has 2^47 bytes. -/
def Target.linuxX86_64 : Target := ⟨true, 64, 2 ^ 47⟩

/-- Linux on AArch64 with GCC and libstdc++: `char` is unsigned, `size_t` has 64
bits. -/
def Target.linuxAArch64 : Target := ⟨false, 64, 2 ^ 47⟩

/-- The constant `PTRDIFF_MAX`. -/
def Target.ptrdiffMax (t : Target) : Nat := 2 ^ (t.sizeBits - 1) - 1

/-- The constant `SIZE_MAX`, written `std::size_t(-1)` in libstdc++. -/
def Target.sizeMax (t : Target) : Nat := 2 ^ t.sizeBits - 1

/-- The value of a plain `char` variable after the driver stored the byte `b` in it. -/
def charOfByte (t : Target) (b : Nat) : Int :=
  if t.charSigned && decide (128 ≤ b % 256) then (b % 256 : Int) - 256 else (b % 256 : Int)

/-- Conversion of an integer to `size_t` (the `size_type` of `std::vector`). -/
def toSizeT (t : Target) (c : Int) : Nat := (c % (2 : Int) ^ t.sizeBits).toNat

/-- The member `std::allocator<T>::allocate(n)` of libstdc++ (`new_allocator.h`) for
elements of `elemBytes` bytes: a request above `PTRDIFF_MAX / sizeof(T)` elements
throws, `bad_array_new_length` when it is also above `SIZE_MAX / sizeof(T)` and
`bad_alloc` otherwise; then `::operator new(n * sizeof(T))` throws `bad_alloc` when
it cannot satisfy the request. -/
def allocate (t : Target) (elemBytes n : Nat) : Except Exception Unit :=
  if n > t.ptrdiffMax / elemBytes then
    if n > t.sizeMax / elemBytes then .error .bad_array_new_length else .error .bad_alloc
  else if n * elemBytes > t.maxAllocBytes then .error .bad_alloc
  else .ok ()

/-- The function `_S_nword(n)` of `std::vector<bool>` in libstdc++
(`stl_bvector.h`): `(n + _S_word_bit - 1) / _S_word_bit` in `size_t` arithmetic,
where a word is an `unsigned long`. The sum wraps around for `n` close to
`SIZE_MAX`. -/
def nword (t : Target) (n : Nat) : Nat :=
  ((n + t.sizeBits - 1) % 2 ^ t.sizeBits) / t.sizeBits

/-- The constructor `std::vector<bool>(n)` of libstdc++ (`stl_bvector.h`,
`_M_initialize` and `_M_initialize_value`). It performs no check of `n` against
`max_size()`: for `n ≠ 0` it allocates `_S_nword(n)` words and sets the end of the
vector `n` positions after its start. The list returned is the vector as `size()` and
the element accesses of the class see it; when the word count wrapped around, the
storage allocated does not cover it. -/
def vectorBool (t : Target) (n : Nat) : Except Exception (List Bool) :=
  if n = 0 then .ok []
  else
    match allocate t (t.sizeBits / 8) (nword t n) with
    | .error ex => .error ex
    | .ok () => .ok (List.replicate n false)

/-- The constructor `std::vector<int16_t>(n)` of libstdc++ (`stl_vector.h`):
`_S_check_init_len` throws `length_error` when `n` exceeds `max_size()`, which is
`PTRDIFF_MAX / sizeof(int16_t)`; otherwise `n` elements are allocated and
value-initialised. -/
def vectorInt16 (t : Target) (n : Nat) : Except Exception (List Int) :=
  if n > t.ptrdiffMax / 2 then .error .length_error
  else if n = 0 then .ok []
  else
    match allocate t 2 n with
    | .error ex => .error ex
    | .ok () => .ok (List.replicate n 0)

/-- The constructor `Joystick::Joystick(std::string path)`.

`fd` is the result of `open`; `axesQuery` and `buttonsQuery` are the outcomes of the
two `ioctl` calls (`none` for the result `-1`, `some b` when the driver stored the
byte `b`); `errnoText` is `strerror(errno)` at the point of failure. -/
def Joystick.construct (t : Target) (path : String) (fd : Int) (errnoText : String)
    (axesQuery buttonsQuery : Option Nat) : Except Exception Joystick :=
  if fd = -1 then
    .error (.JoystickException ("Error " ++ errnoText ++ " opening file \"" ++ path ++ "\""))
  else
    match axesQuery with
    | none =>
      .error (.JoystickException
        ("Error " ++ errnoText ++ " reading properties from joystick \"" ++ path ++ "\""))
    | some axesByte =>
      match buttonsQuery with
      | none =>
        .error (.JoystickException
          ("Error " ++ errnoText ++ " reading properties from joystick \"" ++ path ++ "\""))
      | some buttonsByte =>
        let axes : Int := charOfByte t axesByte
        let buttons : Int := charOfByte t buttonsByte
        match vectorBool t (toSizeT t buttons) with
        | .error ex => .error ex
        | .ok buttonValues =>
          match vectorInt16 t (toSizeT t axes) with
          | .error ex => .error ex
          | .ok axisValues =>
            .ok { _joystick_fd := fd
                  _buttonValues := buttonValues
                  _axisValues := axisValues
                  _buttonCallback := none
                  _axisCallback := none
                  interruptRequested := false
                  trace := [] }

/-- How one iteration of the loop in `Joystick::run` ends. -/
inductive Control where
  | continue
  | returned
  | undefined
deriving DecidableEq, Repr

/-- Outcome of the blocking `read(_joystick_fd, &event, sizeof(event))`:
`failed errnoText` for the result `-1` (nothing stored), `stored e` otherwise. -/
inductive ReadResult where
  | failed (errnoText : String)
  | stored (e : js_event)
deriving DecidableEq, Repr

/-- Appends the invocation of the button callback, if one is registered. -/
def Joystick.invokeButtonCallback (s : Joystick) (ev : ButtonChangeEvent) : Joystick :=
  match s._buttonCallback with
  | some target => { s with trace := s.trace ++ [.buttonCallback target ev] }
  | none => s

/-- Appends the invocation of the axis callback, if one is registered. -/
def Joystick.invokeAxisCallback (s : Joystick) (ev : AxisChangeEvent) : Joystick :=
  match s._axisCallback with
  | some target => { s with trace := s.trace ++ [.axisCallback target ev] }
  | none => s

/-- The classification and dispatch part of the loop body of `Joystick::run`
(the statements after the `read`), applied to the contents of `event`. -/
def Joystick.dispatch (s : Joystick) (event : js_event) : Control × Joystick :=
  if maskedType event = JS_EVENT_BUTTON then
    let buttonChangeEvent : ButtonChangeEvent := ⟨event.number, decide (event.value = 0)⟩
    let lock := unique_lock.default
    let index := buttonChangeEvent.getButtonNumber
    let s1 : Joystick := { s with trace := s.trace ++ [.write .buttons index (holdsMutex [lock])] }
    if index < s._buttonValues.length then
      let s2 : Joystick := { s1 with _buttonValues := s._buttonValues.set index buttonChangeEvent.isPressed }
      (.continue, s2.invokeButtonCallback buttonChangeEvent)
    else
      (.undefined, s1)
  else if maskedType event = JS_EVENT_AXIS then
    let axisChangeEvent : AxisChangeEvent := ⟨event.number, event.value⟩
    let lock := unique_lock.default
    let index := axisChangeEvent.getAxisNumber
    let s1 : Joystick := { s with trace := s.trace ++ [.write .axes index (holdsMutex [lock])] }
    if index < s._axisValues.length then
      let s2 : Joystick := { s1 with _axisValues := s._axisValues.set index axisChangeEvent.getValue }
      (.continue, s2.invokeAxisCallback axisChangeEvent)
    else
      (.undefined, s1)
  else
    (.continue,
      { s with trace := s.trace ++
          [.cerr ("libjoystick: error in internal thread: unknown change event type " ++
            toString (maskedType event))] })

/-- One iteration of the `while(true)` loop of `Joystick::run`. -/
def Joystick.runIteration (s : Joystick) (r : ReadResult) : Control × Joystick :=
  if s.interruptRequested then
    -- `interruption_point()` throws `thread_interrupted`; the handler returns
    (.returned, { s with interruptRequested := false })
  else
    match r with
    | .failed errnoText =>
      let s1 : Joystick := { s with trace := s.trace ++
        [Effect.cerr ("libjoystick: Error reading from joystick: " ++ errnoText)] }
      s1.dispatch js_event.zeroed
    | .stored e => s.dispatch e

/-- The function `Joystick::run`, driven by the outcomes of the successive reads:
iterations follow one another until one returns or has undefined behaviour. When
the outcomes are used up the thread is blocked in the next `read`. -/
def Joystick.run (s : Joystick) : List ReadResult → Control × Joystick
  | [] => (Control.continue, s)
  | r :: rest =>
    match s.runIteration r with
    | (Control.continue, s1) => s1.run rest
    | stopped => stopped

/-- How the call of a destructor ends. The destructor `virtual ~Joystick();` is
declared without an exception specification and no member has a throwing
destructor, so under C++11, which the source requires (`auto`, `decltype`,
`std::make_shared`), it is implicitly `noexcept`: an exception thrown in its body
does not leave it, `std::terminate` is called with that exception in flight. -/
inductive DestructorOutcome where
  | completed
  | terminate (inFlight : Exception)
deriving DecidableEq, Repr

/-- The destructor `Joystick::~Joystick()`. `closeResult` is the result of `close`
and `errnoText` is `strerror(errno)` when it failed. The `throw` statement of the
body runs inside an implicitly `noexcept` function. -/
def Joystick.destructor (s : Joystick) (closeResult : Int) (errnoText : String) :
    DestructorOutcome × Joystick :=
  let s1 : Joystick := { s with interruptRequested := true }
  if closeResult = -1 then
    (.terminate (.JoystickException ("Could not close file descriptor: error " ++ errnoText)),
      s1)
  else
    (.completed, s1)

/-- The member `Joystick::setButtonCallback`. -/
def Joystick.setButtonCallback (s : Joystick) (newCallback : Option Nat) : Joystick :=
  { s with _buttonCallback := newCallback }

/-- The member `Joystick::setAxisCallback`. -/
def Joystick.setAxisCallback (s : Joystick) (newCallback : Option Nat) : Joystick :=
  { s with _axisCallback := newCallback }

/-- The member `Joystick::clearButtonCallback`. -/
def Joystick.clearButtonCallback (s : Joystick) : Joystick :=
  { s with _buttonCallback := none }

/-- The member `Joystick::clearAxisCallback`. -/
def Joystick.clearAxisCallback (s : Joystick) : Joystick :=
  { s with _axisCallback := none }

/-- The member `Joystick::getButtonValue`. No lock object is in scope. -/
def Joystick.getButtonValue (s : Joystick) (buttonNumber : Nat) :
    Except Exception Bool × Joystick :=
  if buttonNumber ≥ s._buttonValues.length then
    (.error (.JoystickException
      ("Attempt to access button number " ++ toString buttonNumber ++
        " of joystick with only " ++ toString s._buttonValues.length ++ "buttons")), s)
  else
    (.ok (s._buttonValues.getD buttonNumber false),
      { s with trace := s.trace ++ [.read .buttons buttonNumber (holdsMutex [])] })

/-- The member `Joystick::getAxisValue`. No lock object is in scope. -/
def Joystick.getAxisValue (s : Joystick) (axisNumber : Nat) :
    Except Exception Int × Joystick :=
  if axisNumber ≥ s._axisValues.length then
    (.error (.JoystickException
      ("Attempt to access axis number " ++ toString axisNumber ++
        " of joystick with only " ++ toString s._axisValues.length ++ "axes")), s)
  else
    (.ok (s._axisValues.getD axisNumber 0),
      { s with trace := s.trace ++ [.read .axes axisNumber (holdsMutex [])] })

/-! ## Spec-side vocabulary -/

/-- The most recent event of a sequence (oldest first) that satisfies `p`. -/
def mostRecent (p : js_event → Bool) (es : List js_event) : Option js_event :=
  es.reverse.find? p

/-- What the reader takes for a button event for button `n`: the masked type of the
code is `JS_EVENT_BUTTON` and the number is `n`. -/
def maskedButtonEventFor (n : Nat) (e : js_event) : Bool :=
  decide (maskedType e = JS_EVENT_BUTTON) && decide (e.number = n)

/-- What the reader takes for an axis event for axis `n`: the masked type of the code
is `JS_EVENT_AXIS` and the number is `n`. -/
def maskedAxisEventFor (n : Nat) (e : js_event) : Bool :=
  decide (maskedType e = JS_EVENT_AXIS) && decide (e.number = n)

/-- The index that the reader writes to for `e`, if any, lies inside the snapshot. -/
def indexInRange (s : Joystick) (e : js_event) : Prop :=
  (maskedType e = JS_EVENT_BUTTON → e.number < s._buttonValues.length) ∧
  (maskedType e = JS_EVENT_AXIS → e.number < s._axisValues.length)

instance (s : Joystick) (e : js_event) : Decidable (indexInRange s e) := by
  unfold indexInRange; infer_instance

/-- Button kind, stated on the type byte itself: a button change (0x01) or the
announcement of a button at open time, which carries the init bit as well (0x81). -/
def isButtonKind (e : js_event) : Bool :=
  decide (e.type = 0x01) || decide (e.type = 0x81)

/-- Axis kind, stated on the type byte itself: an axis change (0x02) or the
announcement of an axis at open time, which carries the init bit as well (0x82). -/
def isAxisKind (e : js_event) : Bool :=
  decide (e.type = 0x02) || decide (e.type = 0x82)

/-- Button-kind event for button `n`, init or not. -/
def buttonKindEventFor (n : Nat) (e : js_event) : Bool :=
  isButtonKind e && decide (e.number = n)

/-- Axis-kind event for axis `n`, init or not. -/
def axisKindEventFor (n : Nat) (e : js_event) : Bool :=
  isAxisKind e && decide (e.number = n)

/-- The number of a button-kind event is below `buttons` and the number of an
axis-kind event is below `axes`. -/
def numberWithin (buttons axes : Nat) (e : js_event) : Prop :=
  (isButtonKind e = true → e.number < buttons) ∧ (isAxisKind e = true → e.number < axes)

instance (buttons axes : Nat) (e : js_event) : Decidable (numberWithin buttons axes e) := by
  unfold numberWithin; infer_instance

/-! ## Sample inputs -/

/-- The session the constructor returns for a device with two axes and four buttons
opened as file descriptor 3. -/
def exampleSession : Joystick :=
  { _joystick_fd := 3
    _buttonValues := [false, false, false, false]
    _axisValues := [0, 0]
    _buttonCallback := none
    _axisCallback := none
    interruptRequested := false
    trace := [] }

/-- An init event announcing button 2 as released (raw value 1). -/
def releaseButton2 : js_event := ⟨100, 1, 0x81, 2⟩

/-- Button 2 goes down (raw value 0). -/
def pressButton2 : js_event := ⟨250, 0, 0x01, 2⟩

/-- Axis 0 moves to -12000. -/
def moveAxis0 : js_event := ⟨300, -12000, 0x02, 0⟩

/-- The announcement of axis 0 at open time, at position 512. -/
def initAxis0 : js_event := ⟨90, 512, 0x82, 0⟩

/-- An event whose type is neither button nor axis. -/
def unknownEvent : js_event := ⟨400, 5, 0x04, 1⟩

/-- A button event for button 7, which a four-button session does not have. -/
def pressButton7 : js_event := ⟨500, 0, 0x01, 7⟩

/-! # Theorems -/

/-! ## The masked event type -/

theorem maskedType_of_lt (e : js_event) (h : e.type < 256) :
    maskedType e = e.type % 128 := by
  unfold maskedType intNot JS_EVENT_INIT
  generalize e.type = t at h
  interval_cases t <;> rfl

theorem maskedType_button_iff (e : js_event) (h : e.type < 256) :
    maskedType e = JS_EVENT_BUTTON ↔ e.type = 0x01 ∨ e.type = 0x81 := by
  rw [maskedType_of_lt e h]; unfold JS_EVENT_BUTTON; omega

theorem maskedType_axis_iff (e : js_event) (h : e.type < 256) :
    maskedType e = JS_EVENT_AXIS ↔ e.type = 0x02 ∨ e.type = 0x82 := by
  rw [maskedType_of_lt e h]; unfold JS_EVENT_AXIS; omega

theorem maskedType_zeroed : maskedType js_event.zeroed = 0 := by decide

/-! ## The branches of `dispatch` -/

theorem JS_EVENT_AXIS_ne_BUTTON : JS_EVENT_AXIS ≠ JS_EVENT_BUTTON := by decide

theorem dispatch_button (s : Joystick) (e : js_event)
    (hb : maskedType e = JS_EVENT_BUTTON) (hi : e.number < s._buttonValues.length) :
    s.dispatch e = (Control.continue, Joystick.invokeButtonCallback
      { s with
        _buttonValues := s._buttonValues.set e.number (decide (e.value = 0))
        trace := s.trace ++ [Effect.write Snapshot.buttons e.number false] }
      ⟨e.number, decide (e.value = 0)⟩) := by
  unfold Joystick.dispatch
  rw [if_pos hb]
  dsimp only [ButtonChangeEvent.getButtonNumber, ButtonChangeEvent.isPressed]
  rw [if_pos hi]
  rfl

theorem dispatch_button_outside (s : Joystick) (e : js_event)
    (hb : maskedType e = JS_EVENT_BUTTON) (hi : ¬ e.number < s._buttonValues.length) :
    s.dispatch e = (Control.undefined,
      { s with trace := s.trace ++ [Effect.write Snapshot.buttons e.number false] }) := by
  unfold Joystick.dispatch
  rw [if_pos hb]
  dsimp only [ButtonChangeEvent.getButtonNumber, ButtonChangeEvent.isPressed]
  rw [if_neg hi]
  rfl

theorem dispatch_axis (s : Joystick) (e : js_event)
    (ha : maskedType e = JS_EVENT_AXIS) (hi : e.number < s._axisValues.length) :
    s.dispatch e = (Control.continue, Joystick.invokeAxisCallback
      { s with
        _axisValues := s._axisValues.set e.number e.value
        trace := s.trace ++ [Effect.write Snapshot.axes e.number false] }
      ⟨e.number, e.value⟩) := by
  have hb : ¬ maskedType e = JS_EVENT_BUTTON := by rw [ha]; exact JS_EVENT_AXIS_ne_BUTTON
  unfold Joystick.dispatch
  rw [if_neg hb, if_pos ha]
  dsimp only [AxisChangeEvent.getAxisNumber, AxisChangeEvent.getValue]
  rw [if_pos hi]
  rfl

theorem dispatch_axis_outside (s : Joystick) (e : js_event)
    (ha : maskedType e = JS_EVENT_AXIS) (hi : ¬ e.number < s._axisValues.length) :
    s.dispatch e = (Control.undefined,
      { s with trace := s.trace ++ [Effect.write Snapshot.axes e.number false] }) := by
  have hb : ¬ maskedType e = JS_EVENT_BUTTON := by rw [ha]; exact JS_EVENT_AXIS_ne_BUTTON
  unfold Joystick.dispatch
  rw [if_neg hb, if_pos ha]
  dsimp only [AxisChangeEvent.getAxisNumber, AxisChangeEvent.getValue]
  rw [if_neg hi]
  rfl

theorem dispatch_unknown (s : Joystick) (e : js_event)
    (hb : maskedType e ≠ JS_EVENT_BUTTON) (ha : maskedType e ≠ JS_EVENT_AXIS) :
    s.dispatch e = (Control.continue,
      { s with trace := s.trace ++
          [Effect.cerr ("libjoystick: error in internal thread: unknown change event type " ++
            toString (maskedType e))] }) := by
  unfold Joystick.dispatch
  rw [if_neg hb, if_neg ha]

theorem invokeButtonCallback_fields (s : Joystick) (ev : ButtonChangeEvent) :
    (s.invokeButtonCallback ev)._buttonValues = s._buttonValues ∧
    (s.invokeButtonCallback ev)._axisValues = s._axisValues ∧
    (s.invokeButtonCallback ev)._buttonCallback = s._buttonCallback ∧
    (s.invokeButtonCallback ev)._axisCallback = s._axisCallback ∧
    (s.invokeButtonCallback ev).interruptRequested = s.interruptRequested ∧
    (s.invokeButtonCallback ev)._joystick_fd = s._joystick_fd := by
  unfold Joystick.invokeButtonCallback
  split <;> simp

theorem invokeAxisCallback_fields (s : Joystick) (ev : AxisChangeEvent) :
    (s.invokeAxisCallback ev)._buttonValues = s._buttonValues ∧
    (s.invokeAxisCallback ev)._axisValues = s._axisValues ∧
    (s.invokeAxisCallback ev)._buttonCallback = s._buttonCallback ∧
    (s.invokeAxisCallback ev)._axisCallback = s._axisCallback ∧
    (s.invokeAxisCallback ev).interruptRequested = s.interruptRequested ∧
    (s.invokeAxisCallback ev)._joystick_fd = s._joystick_fd := by
  unfold Joystick.invokeAxisCallback
  split <;> simp

/-- The three-way case split that `dispatch` performs on an event. -/
theorem dispatch_cases (s : Joystick) (e : js_event) :
    (maskedType e = JS_EVENT_BUTTON ∧ e.number < s._buttonValues.length) ∨
    (maskedType e = JS_EVENT_BUTTON ∧ ¬ e.number < s._buttonValues.length) ∨
    (maskedType e = JS_EVENT_AXIS ∧ e.number < s._axisValues.length) ∨
    (maskedType e = JS_EVENT_AXIS ∧ ¬ e.number < s._axisValues.length) ∨
    (maskedType e ≠ JS_EVENT_BUTTON ∧ maskedType e ≠ JS_EVENT_AXIS) := by
  by_cases hb : maskedType e = JS_EVENT_BUTTON
  · by_cases hi : e.number < s._buttonValues.length
    · exact Or.inl ⟨hb, hi⟩
    · exact Or.inr (Or.inl ⟨hb, hi⟩)
  · by_cases ha : maskedType e = JS_EVENT_AXIS
    · by_cases hi : e.number < s._axisValues.length
      · exact Or.inr (Or.inr (Or.inl ⟨ha, hi⟩))
      · exact Or.inr (Or.inr (Or.inr (Or.inl ⟨ha, hi⟩)))
    · exact Or.inr (Or.inr (Or.inr (Or.inr ⟨hb, ha⟩)))

/-! ## Field-by-field description of `dispatch` -/

theorem dispatch_buttonValues (s : Joystick) (e : js_event) :
    (s.dispatch e).2._buttonValues =
      if maskedType e = JS_EVENT_BUTTON then s._buttonValues.set e.number (decide (e.value = 0))
      else s._buttonValues := by
  rcases dispatch_cases s e with ⟨hb, hi⟩ | ⟨hb, hi⟩ | ⟨ha, hi⟩ | ⟨ha, hi⟩ | ⟨hb, ha⟩
  · rw [dispatch_button s e hb hi, if_pos hb, (invokeButtonCallback_fields _ _).1]
  · rw [dispatch_button_outside s e hb hi, if_pos hb, List.set_eq_of_length_le (by omega)]
  · have hb : ¬ maskedType e = JS_EVENT_BUTTON := by rw [ha]; exact JS_EVENT_AXIS_ne_BUTTON
    rw [dispatch_axis s e ha hi, if_neg hb, (invokeAxisCallback_fields _ _).1]
  · have hb : ¬ maskedType e = JS_EVENT_BUTTON := by rw [ha]; exact JS_EVENT_AXIS_ne_BUTTON
    rw [dispatch_axis_outside s e ha hi, if_neg hb]
  · rw [dispatch_unknown s e hb ha, if_neg hb]

theorem dispatch_axisValues (s : Joystick) (e : js_event) :
    (s.dispatch e).2._axisValues =
      if maskedType e = JS_EVENT_AXIS then s._axisValues.set e.number e.value
      else s._axisValues := by
  rcases dispatch_cases s e with ⟨hb, hi⟩ | ⟨hb, hi⟩ | ⟨ha, hi⟩ | ⟨ha, hi⟩ | ⟨hb, ha⟩
  · have ha : ¬ maskedType e = JS_EVENT_AXIS := by rw [hb]; exact JS_EVENT_AXIS_ne_BUTTON.symm
    rw [dispatch_button s e hb hi, if_neg ha, (invokeButtonCallback_fields _ _).2.1]
  · have ha : ¬ maskedType e = JS_EVENT_AXIS := by rw [hb]; exact JS_EVENT_AXIS_ne_BUTTON.symm
    rw [dispatch_button_outside s e hb hi, if_neg ha]
  · rw [dispatch_axis s e ha hi, if_pos ha, (invokeAxisCallback_fields _ _).2.1]
  · rw [dispatch_axis_outside s e ha hi, if_pos ha, List.set_eq_of_length_le (by omega)]
  · rw [dispatch_unknown s e hb ha, if_neg ha]

/-- What `dispatch` never touches: both callback slots, the interruption flag and
the file descriptor. -/
theorem dispatch_frame (s : Joystick) (e : js_event) :
    (s.dispatch e).2._buttonCallback = s._buttonCallback ∧
    (s.dispatch e).2._axisCallback = s._axisCallback ∧
    (s.dispatch e).2.interruptRequested = s.interruptRequested ∧
    (s.dispatch e).2._joystick_fd = s._joystick_fd := by
  rcases dispatch_cases s e with ⟨hb, hi⟩ | ⟨hb, hi⟩ | ⟨ha, hi⟩ | ⟨ha, hi⟩ | ⟨hb, ha⟩
  · rw [dispatch_button s e hb hi]
    exact (invokeButtonCallback_fields _ _).2.2
  · rw [dispatch_button_outside s e hb hi]; exact ⟨rfl, rfl, rfl, rfl⟩
  · rw [dispatch_axis s e ha hi]
    exact (invokeAxisCallback_fields _ _).2.2
  · rw [dispatch_axis_outside s e ha hi]; exact ⟨rfl, rfl, rfl, rfl⟩
  · rw [dispatch_unknown s e hb ha]; exact ⟨rfl, rfl, rfl, rfl⟩

/-- The control outcome of `dispatch`: it continues exactly when the index it
writes to lies inside the snapshot. -/
theorem dispatch_control (s : Joystick) (e : js_event) :
    (s.dispatch e).1 = if indexInRange s e then Control.continue else Control.undefined := by
  unfold indexInRange
  rcases dispatch_cases s e with ⟨hb, hi⟩ | ⟨hb, hi⟩ | ⟨ha, hi⟩ | ⟨ha, hi⟩ | ⟨hb, ha⟩
  · have ha : ¬ maskedType e = JS_EVENT_AXIS := by rw [hb]; exact JS_EVENT_AXIS_ne_BUTTON.symm
    rw [dispatch_button s e hb hi, if_pos ⟨fun _ => hi, fun h => absurd h ha⟩]
  · rw [dispatch_button_outside s e hb hi, if_neg (fun h => hi (h.1 hb))]
  · have hb : ¬ maskedType e = JS_EVENT_BUTTON := by rw [ha]; exact JS_EVENT_AXIS_ne_BUTTON
    rw [dispatch_axis s e ha hi, if_pos ⟨fun h => absurd h hb, fun _ => hi⟩]
  · rw [dispatch_axis_outside s e ha hi, if_neg (fun h => hi (h.2 ha))]
  · rw [dispatch_unknown s e hb ha, if_pos ⟨fun h => absurd h hb, fun h => absurd h ha⟩]

/-! ## The loop -/

theorem runIteration_stored (s : Joystick) (e : js_event) (h : s.interruptRequested = false) :
    s.runIteration (ReadResult.stored e) = s.dispatch e := by
  unfold Joystick.runIteration
  simp [h]

theorem run_cons_continue (s s1 : Joystick) (r : ReadResult) (rest : List ReadResult)
    (h : s.runIteration r = (Control.continue, s1)) :
    s.run (r :: rest) = s1.run rest := by
  rw [Joystick.run, h]

theorem run_cons_stopped (s : Joystick) (r : ReadResult) (rest : List ReadResult)
    (h : (s.runIteration r).1 ≠ Control.continue) :
    s.run (r :: rest) = s.runIteration r := by
  rw [Joystick.run]
  rcases hr : s.runIteration r with ⟨c, s1⟩
  rw [hr] at h
  cases c
  · exact absurd rfl h
  · rfl
  · rfl

theorem indexInRange_congr (s t : Joystick) (e : js_event)
    (hb : t._buttonValues.length = s._buttonValues.length)
    (ha : t._axisValues.length = s._axisValues.length) :
    indexInRange t e ↔ indexInRange s e := by
  unfold indexInRange
  rw [hb, ha]

theorem dispatch_lengths (s : Joystick) (e : js_event) :
    (s.dispatch e).2._buttonValues.length = s._buttonValues.length ∧
    (s.dispatch e).2._axisValues.length = s._axisValues.length := by
  rw [dispatch_buttonValues, dispatch_axisValues]
  constructor <;> split <;> simp

/-- One more stored event in front of the sequence, with its index in range. -/
theorem run_stored_cons (s : Joystick) (e : js_event) (es : List js_event)
    (hint : s.interruptRequested = false) (hin : indexInRange s e) :
    s.run ((e :: es).map ReadResult.stored) = (s.dispatch e).2.run (es.map ReadResult.stored) := by
  rw [List.map_cons]
  apply run_cons_continue
  rw [runIteration_stored s e hint]
  have hc := dispatch_control s e
  rw [if_pos hin] at hc
  exact Prod.ext hc rfl

theorem mostRecent_cons (p : js_event → Bool) (e : js_event) (es : List js_event) :
    mostRecent p (e :: es) =
      match mostRecent p es with
      | some e1 => some e1
      | none => if p e then some e else none := by
  unfold mostRecent
  rw [List.reverse_cons, List.find?_append]
  cases h : List.find? p es.reverse with
  | some e1 => simp
  | none => by_cases hp : p e <;> simp [hp]

/-- The snapshots after the reader has processed a sequence of stored events
whose indices are in range: the loop is still running, the lengths are unchanged,
and every slot holds what the most recent event for it wrote, or its old value. -/
theorem run_stored_snapshots (es : List js_event) :
    ∀ s : Joystick, s.interruptRequested = false → (∀ e ∈ es, indexInRange s e) →
      (s.run (es.map ReadResult.stored)).1 = Control.continue ∧
      (s.run (es.map ReadResult.stored)).2._buttonValues.length = s._buttonValues.length ∧
      (s.run (es.map ReadResult.stored)).2._axisValues.length = s._axisValues.length ∧
      (∀ n, n < s._buttonValues.length →
        (s.run (es.map ReadResult.stored)).2._buttonValues.getD n false =
          match mostRecent (maskedButtonEventFor n) es with
          | some e => decide (e.value = 0)
          | none => s._buttonValues.getD n false) ∧
      (∀ n, n < s._axisValues.length →
        (s.run (es.map ReadResult.stored)).2._axisValues.getD n 0 =
          match mostRecent (maskedAxisEventFor n) es with
          | some e => e.value
          | none => s._axisValues.getD n 0) := by
  induction es with
  | nil =>
    intro s _ _
    exact ⟨rfl, rfl, rfl, fun n _ => rfl, fun n _ => rfl⟩
  | cons e es ih =>
    intro s hint hin
    have hine : indexInRange s e := hin e (List.mem_cons_self _ _)
    obtain ⟨hlb, hla⟩ := dispatch_lengths s e
    have hint1 : (s.dispatch e).2.interruptRequested = false := by
      rw [(dispatch_frame s e).2.2.1]; exact hint
    have hin1 : ∀ e1 ∈ es, indexInRange (s.dispatch e).2 e1 := fun e1 h1 =>
      (indexInRange_congr s _ e1 hlb hla).mpr (hin e1 (List.mem_cons_of_mem _ h1))
    obtain ⟨hc, hb, ha, hbv, hav⟩ := ih (s.dispatch e).2 hint1 hin1
    rw [run_stored_cons s e es hint hine]
    refine ⟨hc, hb.trans hlb, ha.trans hla, ?_, ?_⟩
    · intro n hn
      rw [hbv n (hlb ▸ hn), mostRecent_cons]
      cases hm : mostRecent (maskedButtonEventFor n) es with
      | some e1 => rfl
      | none =>
        dsimp only
        rw [dispatch_buttonValues]
        by_cases hk : maskedType e = JS_EVENT_BUTTON
        · by_cases hnum : e.number = n
          · have hp : maskedButtonEventFor n e = true := by simp [maskedButtonEventFor, hk, hnum]
            rw [if_pos hk, if_pos hp]
            subst hnum
            simp [List.getD_eq_getElem?_getD, List.getElem?_set, hn]
          · have hp : ¬ maskedButtonEventFor n e = true := by simp [maskedButtonEventFor, hk, hnum]
            rw [if_pos hk, if_neg hp]
            simp [List.getD_eq_getElem?_getD, List.getElem?_set, hnum]
        · have hp : ¬ maskedButtonEventFor n e = true := by simp [maskedButtonEventFor, hk]
          rw [if_neg hk, if_neg hp]
    · intro n hn
      rw [hav n (hla ▸ hn), mostRecent_cons]
      cases hm : mostRecent (maskedAxisEventFor n) es with
      | some e1 => rfl
      | none =>
        dsimp only
        rw [dispatch_axisValues]
        by_cases hk : maskedType e = JS_EVENT_AXIS
        · by_cases hnum : e.number = n
          · have hp : maskedAxisEventFor n e = true := by simp [maskedAxisEventFor, hk, hnum]
            rw [if_pos hk, if_pos hp]
            subst hnum
            simp [List.getD_eq_getElem?_getD, List.getElem?_set, hn]
          · have hp : ¬ maskedAxisEventFor n e = true := by simp [maskedAxisEventFor, hk, hnum]
            rw [if_pos hk, if_neg hp]
            simp [List.getD_eq_getElem?_getD, List.getElem?_set, hnum]
        · have hp : ¬ maskedAxisEventFor n e = true := by simp [maskedAxisEventFor, hk]
          rw [if_neg hk, if_neg hp]

/-! ## Construction -/

theorem vectorBool_ok (t : Target) (n : Nat) (l : List Bool)
    (h : vectorBool t n = Except.ok l) : l = List.replicate n false := by
  unfold vectorBool at h
  split at h
  · rename_i h0
    injection h with h
    rw [← h, h0]; rfl
  · split at h
    · cases h
    · injection h with h; exact h.symm

theorem vectorInt16_ok (t : Target) (n : Nat) (l : List Int)
    (h : vectorInt16 t n = Except.ok l) : l = List.replicate n 0 := by
  unfold vectorInt16 at h
  split at h
  · cases h
  · split at h
    · rename_i h0
      injection h with h
      rw [← h, h0]; rfl
    · split at h
      · cases h
      · injection h with h; exact h.symm

/-- A session that the constructor returns has all buttons `false`, all axes `0`,
no callback registered, no interruption requested and an empty trace. -/
theorem construct_ok (t : Target) (path : String) (fd : Int) (errnoText : String)
    (axesQuery buttonsQuery : Option Nat) (s : Joystick)
    (h : Joystick.construct t path fd errnoText axesQuery buttonsQuery = Except.ok s) :
    s._buttonValues = List.replicate s._buttonValues.length false ∧
    s._axisValues = List.replicate s._axisValues.length 0 ∧
    s._buttonCallback = none ∧ s._axisCallback = none ∧
    s.interruptRequested = false ∧ s.trace = [] := by
  unfold Joystick.construct at h
  split at h
  · cases h
  · split at h
    · cases h
    · split at h
      · cases h
      · dsimp only at h
        split at h
        · cases h
        · rename_i bv hbv
          split at h
          · cases h
          · rename_i av hav
            injection h with h
            subst h
            have hb := vectorBool_ok _ _ _ hbv
            have ha := vectorInt16_ok _ _ _ hav
            refine ⟨?_, ?_, rfl, rfl, rfl, rfl⟩
            · dsimp only; rw [hb, List.length_replicate]
            · dsimp only; rw [ha, List.length_replicate]

theorem getD_replicate {α : Type} (k n : Nat) (a : α) : (List.replicate k a).getD n a = a := by
  rw [List.getD_eq_getElem?_getD, List.getElem?_replicate]
  split <;> rfl

/-! ## Kinds stated on the type byte -/

theorem mostRecent_congr (p q : js_event → Bool) (es : List js_event)
    (h : ∀ e ∈ es, p e = q e) : mostRecent p es = mostRecent q es := by
  induction es with
  | nil => rfl
  | cons e es ih =>
    rw [mostRecent_cons, mostRecent_cons, ih (fun e1 h1 => h e1 (List.mem_cons_of_mem _ h1)),
      h e (List.mem_cons_self _ _)]

/-- On a type byte, the masked type of the code is `JS_EVENT_BUTTON` exactly for
the button kinds 0x01 and 0x81. -/
theorem maskedType_button_iff_isButtonKind (e : js_event) (h : e.type < 256) :
    maskedType e = JS_EVENT_BUTTON ↔ isButtonKind e = true := by
  rw [maskedType_button_iff e h]
  unfold isButtonKind
  simp

/-- On a type byte, the masked type of the code is `JS_EVENT_AXIS` exactly for the
axis kinds 0x02 and 0x82. -/
theorem maskedType_axis_iff_isAxisKind (e : js_event) (h : e.type < 256) :
    maskedType e = JS_EVENT_AXIS ↔ isAxisKind e = true := by
  rw [maskedType_axis_iff e h]
  unfold isAxisKind
  simp

theorem maskedButtonEventFor_eq (n : Nat) (e : js_event) (h : e.type < 256) :
    maskedButtonEventFor n e = buttonKindEventFor n e := by
  unfold maskedButtonEventFor buttonKindEventFor
  by_cases hk : isButtonKind e = true
  · rw [hk, decide_eq_true ((maskedType_button_iff_isButtonKind e h).mpr hk)]
  · have hm : ¬ maskedType e = JS_EVENT_BUTTON := fun hm =>
      hk ((maskedType_button_iff_isButtonKind e h).mp hm)
    rw [Bool.not_eq_true] at hk
    rw [hk, decide_eq_false hm]

theorem maskedAxisEventFor_eq (n : Nat) (e : js_event) (h : e.type < 256) :
    maskedAxisEventFor n e = axisKindEventFor n e := by
  unfold maskedAxisEventFor axisKindEventFor
  by_cases hk : isAxisKind e = true
  · rw [hk, decide_eq_true ((maskedType_axis_iff_isAxisKind e h).mpr hk)]
  · have hm : ¬ maskedType e = JS_EVENT_AXIS := fun hm =>
      hk ((maskedType_axis_iff_isAxisKind e h).mp hm)
    rw [Bool.not_eq_true] at hk
    rw [hk, decide_eq_false hm]

theorem indexInRange_of_numberWithin (s : Joystick) (e : js_event) (h : e.type < 256)
    (hin : numberWithin s._buttonValues.length s._axisValues.length e) :
    indexInRange s e :=
  ⟨fun hb => hin.1 ((maskedType_button_iff_isButtonKind e h).mp hb),
    fun ha => hin.2 ((maskedType_axis_iff_isAxisKind e h).mp ha)⟩

/-! ## Claims -/

/-- C1: take a session the constructor returned for a device reporting `axes` axes
and `buttons` buttons, its snapshots sized to these counts, and any sequence of raw
events (fields in the ranges of `js_event`) in which the number of every button-kind
event is below `buttons` and the number of every axis-kind event is below `axes`.
After the reader has processed the sequence the loop is still running, and
`getButtonValue n`, for `n` below `buttons`, succeeds with `true` exactly when the
most recent button-kind event for `n` carried the raw value `0`, and with `false`
when there was none. Button kind is stated on the type byte, 0x01 or 0x81: events
with and without the init bit count alike. -/
theorem getButtonValue_reflects_latest_event (t : Target) (path : String) (fd : Int)
    (errnoText : String) (axes buttons : Nat) (s : Joystick)
    (hs : Joystick.construct t path fd errnoText (some axes) (some buttons) = Except.ok s)
    (hsized : s._buttonValues.length = buttons ∧ s._axisValues.length = axes)
    (es : List js_event) (hwf : ∀ e ∈ es, e.inRange)
    (hin : ∀ e ∈ es, numberWithin buttons axes e)
    (n : Nat) (hn : n < buttons) :
    (s.run (es.map ReadResult.stored)).1 = Control.continue ∧
    ((s.run (es.map ReadResult.stored)).2.getButtonValue n).1 =
      Except.ok (match mostRecent (buttonKindEventFor n) es with
        | some e => decide (e.value = 0)
        | none => false) := by
  obtain ⟨hbv, _, _, _, hint, _⟩ :=
    construct_ok t path fd errnoText (some axes) (some buttons) s hs
  have hin1 : ∀ e ∈ es, indexInRange s e := fun e he =>
    indexInRange_of_numberWithin s e (hwf e he).2.2.2.1
      (by rw [hsized.1, hsized.2]; exact hin e he)
  have hn1 : n < s._buttonValues.length := by rw [hsized.1]; exact hn
  obtain ⟨hc, hlen, _, hval, _⟩ := run_stored_snapshots es s hint hin1
  refine ⟨hc, ?_⟩
  have hfresh : s._buttonValues.getD n false = false := by
    rw [hbv]; exact getD_replicate _ _ _
  have hrecent : mostRecent (maskedButtonEventFor n) es = mostRecent (buttonKindEventFor n) es :=
    mostRecent_congr _ _ es (fun e he => maskedButtonEventFor_eq n e (hwf e he).2.2.2.1)
  unfold Joystick.getButtonValue
  rw [if_neg (by rw [hlen]; omega)]
  dsimp only
  rw [hval n hn1, hfresh, hrecent]

/-- C2: take a session the constructor returned for a device reporting `axes` axes
and `buttons` buttons, its snapshots sized to these counts, and any sequence of raw
events (fields in the ranges of `js_event`) in which the number of every button-kind
event is below `buttons` and the number of every axis-kind event is below `axes`.
After the reader has processed the sequence the loop is still running, and
`getAxisValue n`, for `n` below `axes`, succeeds with the raw value of the most
recent axis-kind event for `n`, whatever other events were processed, and with `0`
when there was none. Axis kind is stated on the type byte, 0x02 or 0x82: events with
and without the init bit count alike. -/
theorem getAxisValue_reflects_latest_event (t : Target) (path : String) (fd : Int)
    (errnoText : String) (axes buttons : Nat) (s : Joystick)
    (hs : Joystick.construct t path fd errnoText (some axes) (some buttons) = Except.ok s)
    (hsized : s._buttonValues.length = buttons ∧ s._axisValues.length = axes)
    (es : List js_event) (hwf : ∀ e ∈ es, e.inRange)
    (hin : ∀ e ∈ es, numberWithin buttons axes e)
    (n : Nat) (hn : n < axes) :
    (s.run (es.map ReadResult.stored)).1 = Control.continue ∧
    ((s.run (es.map ReadResult.stored)).2.getAxisValue n).1 =
      Except.ok (match mostRecent (axisKindEventFor n) es with
        | some e => e.value
        | none => 0) := by
  obtain ⟨_, hav, _, _, hint, _⟩ :=
    construct_ok t path fd errnoText (some axes) (some buttons) s hs
  have hin1 : ∀ e ∈ es, indexInRange s e := fun e he =>
    indexInRange_of_numberWithin s e (hwf e he).2.2.2.1
      (by rw [hsized.1, hsized.2]; exact hin e he)
  have hn1 : n < s._axisValues.length := by rw [hsized.2]; exact hn
  obtain ⟨hc, _, hlen, _, hval⟩ := run_stored_snapshots es s hint hin1
  refine ⟨hc, ?_⟩
  have hfresh : s._axisValues.getD n 0 = 0 := by
    rw [hav]; exact getD_replicate _ _ _
  have hrecent : mostRecent (maskedAxisEventFor n) es = mostRecent (axisKindEventFor n) es :=
    mostRecent_congr _ _ es (fun e he => maskedAxisEventFor_eq n e (hwf e he).2.2.2.1)
  unfold Joystick.getAxisValue
  rw [if_neg (by rw [hlen]; omega)]
  dsimp only
  rw [hval n hn1, hfresh, hrecent]

/-- C3: for every session state and every index, `getButtonValue` (respectively
`getAxisValue`) succeeds with `b` exactly when slot `i` of the snapshot exists and
holds `b`, raises an exception exactly when `i` is at least the count, the exception
being a `JoystickException` whose message spells the requested index and the count
in decimal, and in every case leaves both snapshots and both callback slots as they
were. -/
theorem getValue_contract (s : Joystick) (i : Nat) :
    ((∀ b, (s.getButtonValue i).1 = Except.ok b ↔ s._buttonValues[i]? = some b) ∧
     ((∃ ex, (s.getButtonValue i).1 = Except.error ex) ↔ i ≥ s._buttonValues.length) ∧
     (∀ ex, (s.getButtonValue i).1 = Except.error ex →
        ex = Exception.JoystickException
          ("Attempt to access button number " ++ (Nat.toDigits 10 i).asString ++
            " of joystick with only " ++
            (Nat.toDigits 10 s._buttonValues.length).asString ++ "buttons")) ∧
     (s.getButtonValue i).2._buttonValues = s._buttonValues ∧
     (s.getButtonValue i).2._axisValues = s._axisValues ∧
     (s.getButtonValue i).2._buttonCallback = s._buttonCallback ∧
     (s.getButtonValue i).2._axisCallback = s._axisCallback) ∧
    ((∀ v, (s.getAxisValue i).1 = Except.ok v ↔ s._axisValues[i]? = some v) ∧
     ((∃ ex, (s.getAxisValue i).1 = Except.error ex) ↔ i ≥ s._axisValues.length) ∧
     (∀ ex, (s.getAxisValue i).1 = Except.error ex →
        ex = Exception.JoystickException
          ("Attempt to access axis number " ++ (Nat.toDigits 10 i).asString ++
            " of joystick with only " ++
            (Nat.toDigits 10 s._axisValues.length).asString ++ "axes")) ∧
     (s.getAxisValue i).2._buttonValues = s._buttonValues ∧
     (s.getAxisValue i).2._axisValues = s._axisValues ∧
     (s.getAxisValue i).2._buttonCallback = s._buttonCallback ∧
     (s.getAxisValue i).2._axisCallback = s._axisCallback) := by
  constructor
  · unfold Joystick.getButtonValue
    by_cases h : i ≥ s._buttonValues.length
    · rw [if_pos h]
      refine ⟨fun b => ?_, ?_, ?_, rfl, rfl, rfl, rfl⟩
      · rw [List.getElem?_eq_none h]
        constructor <;> intro hh <;> cases hh
      · exact ⟨fun _ => h, fun _ => ⟨_, rfl⟩⟩
      · intro ex hex
        injection hex with hex
        exact hex.symm
    · rw [if_neg h]
      have hlt : i < s._buttonValues.length := by omega
      refine ⟨fun b => ?_, ?_, ?_, rfl, rfl, rfl, rfl⟩
      · dsimp only
        rw [List.getD_eq_getElem?_getD, List.getElem?_eq_getElem hlt]
        simp
      · constructor
        · rintro ⟨ex, hex⟩; cases hex
        · intro hge; exact absurd hge h
      · intro ex hex; cases hex
  · unfold Joystick.getAxisValue
    by_cases h : i ≥ s._axisValues.length
    · rw [if_pos h]
      refine ⟨fun b => ?_, ?_, ?_, rfl, rfl, rfl, rfl⟩
      · rw [List.getElem?_eq_none h]
        constructor <;> intro hh <;> cases hh
      · exact ⟨fun _ => h, fun _ => ⟨_, rfl⟩⟩
      · intro ex hex
        injection hex with hex
        exact hex.symm
    · rw [if_neg h]
      have hlt : i < s._axisValues.length := by omega
      refine ⟨fun b => ?_, ?_, ?_, rfl, rfl, rfl, rfl⟩
      · dsimp only
        rw [List.getD_eq_getElem?_getD, List.getElem?_eq_getElem hlt]
        simp
      · constructor
        · rintro ⟨ex, hex⟩; cases hex
        · intro hge; exact absurd hge h
      · intro ex hex; cases hex

/-! ## Callback invocations in the trace -/

theorem buttonCalls_append (a b : List Effect) :
    buttonCalls (a ++ b) = buttonCalls a ++ buttonCalls b := by
  induction a with
  | nil => rfl
  | cons x a ih => cases x <;> simp [buttonCalls, ih]

theorem axisCalls_append (a b : List Effect) :
    axisCalls (a ++ b) = axisCalls a ++ axisCalls b := by
  induction a with
  | nil => rfl
  | cons x a ih => cases x <;> simp [axisCalls, ih]

/-- The button callback invocations that `dispatch` adds to the trace. -/
theorem dispatch_buttonCalls (s : Joystick) (e : js_event) :
    buttonCalls (s.dispatch e).2.trace = buttonCalls s.trace ++
      (if maskedType e = JS_EVENT_BUTTON ∧ e.number < s._buttonValues.length then
        match s._buttonCallback with
        | some cb => [(cb, (⟨e.number, decide (e.value = 0)⟩ : ButtonChangeEvent))]
        | none => []
      else []) := by
  rcases dispatch_cases s e with ⟨hb, hi⟩ | ⟨hb, hi⟩ | ⟨ha, hi⟩ | ⟨ha, hi⟩ | ⟨hb, ha⟩
  · rw [dispatch_button s e hb hi, if_pos ⟨hb, hi⟩]
    unfold Joystick.invokeButtonCallback
    cases hcb : s._buttonCallback <;> simp [buttonCalls_append, buttonCalls]
  · rw [dispatch_button_outside s e hb hi, if_neg (fun h => hi h.2)]
    simp [buttonCalls_append, buttonCalls]
  · have hb : ¬ maskedType e = JS_EVENT_BUTTON := by rw [ha]; exact JS_EVENT_AXIS_ne_BUTTON
    rw [dispatch_axis s e ha hi, if_neg (fun h => hb h.1)]
    unfold Joystick.invokeAxisCallback
    cases hcb : s._axisCallback <;> simp [buttonCalls_append, buttonCalls]
  · have hb : ¬ maskedType e = JS_EVENT_BUTTON := by rw [ha]; exact JS_EVENT_AXIS_ne_BUTTON
    rw [dispatch_axis_outside s e ha hi, if_neg (fun h => hb h.1)]
    simp [buttonCalls_append, buttonCalls]
  · rw [dispatch_unknown s e hb ha, if_neg (fun h => hb h.1)]
    simp [buttonCalls_append, buttonCalls]

/-- The axis callback invocations that `dispatch` adds to the trace. -/
theorem dispatch_axisCalls (s : Joystick) (e : js_event) :
    axisCalls (s.dispatch e).2.trace = axisCalls s.trace ++
      (if maskedType e = JS_EVENT_AXIS ∧ e.number < s._axisValues.length then
        match s._axisCallback with
        | some cb => [(cb, (⟨e.number, e.value⟩ : AxisChangeEvent))]
        | none => []
      else []) := by
  rcases dispatch_cases s e with ⟨hb, hi⟩ | ⟨hb, hi⟩ | ⟨ha, hi⟩ | ⟨ha, hi⟩ | ⟨hb, ha⟩
  · have ha : ¬ maskedType e = JS_EVENT_AXIS := by rw [hb]; exact JS_EVENT_AXIS_ne_BUTTON.symm
    rw [dispatch_button s e hb hi, if_neg (fun h => ha h.1)]
    unfold Joystick.invokeButtonCallback
    cases hcb : s._buttonCallback <;> simp [axisCalls_append, axisCalls]
  · have ha : ¬ maskedType e = JS_EVENT_AXIS := by rw [hb]; exact JS_EVENT_AXIS_ne_BUTTON.symm
    rw [dispatch_button_outside s e hb hi, if_neg (fun h => ha h.1)]
    simp [axisCalls_append, axisCalls]
  · rw [dispatch_axis s e ha hi, if_pos ⟨ha, hi⟩]
    unfold Joystick.invokeAxisCallback
    cases hcb : s._axisCallback <;> simp [axisCalls_append, axisCalls]
  · rw [dispatch_axis_outside s e ha hi, if_neg (fun h => hi h.2)]
    simp [axisCalls_append, axisCalls]
  · rw [dispatch_unknown s e hb ha, if_neg (fun h => ha h.1)]
    simp [axisCalls_append, axisCalls]

/-- The state in which `runIteration` hands the event over to `dispatch`: the
session itself after a successful read, the session with the report on `std::cerr`
after a failed one. -/
theorem runIteration_cases (s : Joystick) (r : ReadResult) :
    (s.interruptRequested = true ∧
      s.runIteration r = (Control.returned, { s with interruptRequested := false })) ∨
    (s.interruptRequested = false ∧ ∃ (s1 : Joystick) (e : js_event),
      s.runIteration r = s1.dispatch e ∧
      s1._buttonValues = s._buttonValues ∧ s1._axisValues = s._axisValues ∧
      s1._buttonCallback = s._buttonCallback ∧ s1._axisCallback = s._axisCallback ∧
      s1.interruptRequested = s.interruptRequested ∧
      buttonCalls s1.trace = buttonCalls s.trace ∧ axisCalls s1.trace = axisCalls s.trace ∧
      e = (match r with
        | ReadResult.failed _ => js_event.zeroed
        | ReadResult.stored e0 => e0)) := by
  unfold Joystick.runIteration
  by_cases h : s.interruptRequested = true
  · left
    exact ⟨h, by rw [if_pos h]⟩
  · right
    have hf : s.interruptRequested = false := by simpa using h
    refine ⟨hf, ?_⟩
    rw [if_neg h]
    cases r with
    | failed txt =>
      exact ⟨_, _, rfl, rfl, rfl, rfl, rfl, rfl,
        by simp [buttonCalls_append, buttonCalls], by simp [axisCalls_append, axisCalls], rfl⟩
    | stored e => exact ⟨s, e, rfl, rfl, rfl, rfl, rfl, rfl, rfl, rfl, rfl⟩

/-! ## Independence of the snapshots from the callback slots -/

theorem dispatch_congr (s t : Joystick) (e : js_event)
    (hb : s._buttonValues = t._buttonValues) (ha : s._axisValues = t._axisValues)
    (hi : s.interruptRequested = t.interruptRequested) :
    (s.dispatch e).1 = (t.dispatch e).1 ∧
    (s.dispatch e).2._buttonValues = (t.dispatch e).2._buttonValues ∧
    (s.dispatch e).2._axisValues = (t.dispatch e).2._axisValues ∧
    (s.dispatch e).2.interruptRequested = (t.dispatch e).2.interruptRequested := by
  refine ⟨?_, ?_, ?_, ?_⟩
  · rw [dispatch_control, dispatch_control]
    have h := indexInRange_congr t s e (congrArg List.length hb) (congrArg List.length ha)
    by_cases hs : indexInRange s e
    · rw [if_pos hs, if_pos (h.mp hs)]
    · rw [if_neg hs, if_neg (fun x => hs (h.mpr x))]
  · rw [dispatch_buttonValues, dispatch_buttonValues, hb]
  · rw [dispatch_axisValues, dispatch_axisValues, ha]
  · rw [(dispatch_frame s e).2.2.1, (dispatch_frame t e).2.2.1, hi]

theorem runIteration_congr (s t : Joystick) (r : ReadResult)
    (hb : s._buttonValues = t._buttonValues) (ha : s._axisValues = t._axisValues)
    (hi : s.interruptRequested = t.interruptRequested) :
    (s.runIteration r).1 = (t.runIteration r).1 ∧
    (s.runIteration r).2._buttonValues = (t.runIteration r).2._buttonValues ∧
    (s.runIteration r).2._axisValues = (t.runIteration r).2._axisValues ∧
    (s.runIteration r).2.interruptRequested = (t.runIteration r).2.interruptRequested := by
  rcases runIteration_cases s r with ⟨hs, hsr⟩ | ⟨hs, s1, e1, hsr, hs1b, hs1a, _, _, hs1i, _, _, he1⟩
  · rcases runIteration_cases t r with ⟨_, htr⟩ | ⟨ht, _⟩
    · rw [hsr, htr]
      exact ⟨rfl, hb, ha, rfl⟩
    · rw [hs] at hi; rw [← hi] at ht; cases ht
  · rcases runIteration_cases t r with ⟨ht, _⟩ | ⟨_, t1, e2, htr, ht1b, ht1a, _, _, ht1i, _, _, he2⟩
    · rw [hs] at hi; rw [← hi] at ht; cases ht
    · rw [hsr, htr, he1, ← he2]
      exact dispatch_congr s1 t1 e2 (by rw [hs1b, ht1b, hb]) (by rw [hs1a, ht1a, ha])
        (by rw [hs1i, ht1i, hi])

/-- Control outcome, snapshots and interruption flag after `run` depend only on the
snapshots and the interruption flag before it, not on the callback slots. -/
theorem run_congr (rs : List ReadResult) :
    ∀ s t : Joystick, s._buttonValues = t._buttonValues → s._axisValues = t._axisValues →
      s.interruptRequested = t.interruptRequested →
      (s.run rs).1 = (t.run rs).1 ∧
      (s.run rs).2._buttonValues = (t.run rs).2._buttonValues ∧
      (s.run rs).2._axisValues = (t.run rs).2._axisValues ∧
      (s.run rs).2.interruptRequested = (t.run rs).2.interruptRequested := by
  induction rs with
  | nil => intro s t hb ha hi; exact ⟨rfl, hb, ha, hi⟩
  | cons r rest ih =>
    intro s t hb ha hi
    obtain ⟨hc, hb1, ha1, hi1⟩ := runIteration_congr s t r hb ha hi
    rcases hsr : s.runIteration r with ⟨c, s1⟩
    rcases htr : t.runIteration r with ⟨d, t1⟩
    rw [hsr, htr] at hc hb1 ha1 hi1
    dsimp only at hc hb1 ha1 hi1
    subst hc
    by_cases hcont : c = Control.continue
    · subst hcont
      rw [run_cons_continue s s1 r rest hsr, run_cons_continue t t1 r rest htr]
      exact ih s1 t1 hb1 ha1 hi1
    · rw [run_cons_stopped s r rest (by rw [hsr]; exact hcont),
        run_cons_stopped t r rest (by rw [htr]; exact hcont), hsr, htr]
      exact ⟨rfl, hb1, ha1, hi1⟩

/-! ## Sessions without a registered callback -/

theorem runIteration_buttonCalls_none (s : Joystick) (r : ReadResult)
    (h : s._buttonCallback = none) :
    buttonCalls (s.runIteration r).2.trace = buttonCalls s.trace ∧
    (s.runIteration r).2._buttonCallback = none := by
  rcases runIteration_cases s r with ⟨_, hsr⟩ | ⟨_, s1, e1, hsr, _, _, hcb, _, _, htr, _, _⟩
  · rw [hsr]; exact ⟨rfl, h⟩
  · rw [hsr, dispatch_buttonCalls, (dispatch_frame s1 e1).1, hcb, h, htr]
    refine ⟨?_, rfl⟩
    split <;> simp

theorem runIteration_axisCalls_none (s : Joystick) (r : ReadResult)
    (h : s._axisCallback = none) :
    axisCalls (s.runIteration r).2.trace = axisCalls s.trace ∧
    (s.runIteration r).2._axisCallback = none := by
  rcases runIteration_cases s r with ⟨_, hsr⟩ | ⟨_, s1, e1, hsr, _, _, _, hcb, _, _, htr, _⟩
  · rw [hsr]; exact ⟨rfl, h⟩
  · rw [hsr, dispatch_axisCalls, (dispatch_frame s1 e1).2.1, hcb, h, htr]
    refine ⟨?_, rfl⟩
    split <;> simp

theorem run_buttonCalls_none (rs : List ReadResult) :
    ∀ s : Joystick, s._buttonCallback = none →
      buttonCalls (s.run rs).2.trace = buttonCalls s.trace := by
  induction rs with
  | nil => intro s _; rfl
  | cons r rest ih =>
    intro s h
    obtain ⟨htr, hcb⟩ := runIteration_buttonCalls_none s r h
    rcases hsr : s.runIteration r with ⟨c, s1⟩
    rw [hsr] at htr hcb
    by_cases hcont : c = Control.continue
    · subst hcont
      rw [run_cons_continue s s1 r rest hsr, ih s1 hcb]
      exact htr
    · rw [run_cons_stopped s r rest (by rw [hsr]; exact hcont), hsr]
      exact htr

theorem run_axisCalls_none (rs : List ReadResult) :
    ∀ s : Joystick, s._axisCallback = none →
      axisCalls (s.run rs).2.trace = axisCalls s.trace := by
  induction rs with
  | nil => intro s _; rfl
  | cons r rest ih =>
    intro s h
    obtain ⟨htr, hcb⟩ := runIteration_axisCalls_none s r h
    rcases hsr : s.runIteration r with ⟨c, s1⟩
    rw [hsr] at htr hcb
    by_cases hcont : c = Control.continue
    · subst hcont
      rw [run_cons_continue s s1 r rest hsr, ih s1 hcb]
      exact htr
    · rw [run_cons_stopped s r rest (by rw [hsr]; exact hcont), hsr]
      exact htr

/-! ## Sessions with a registered button callback -/

theorem run_buttonCalls_registered (cb : Nat) (es : List js_event) :
    ∀ s : Joystick, s.interruptRequested = false → s._buttonCallback = some cb →
      (∀ e ∈ es, maskedType e = JS_EVENT_BUTTON ∧ e.number < s._buttonValues.length) →
      (s.run (es.map ReadResult.stored)).1 = Control.continue ∧
      buttonCalls (s.run (es.map ReadResult.stored)).2.trace =
        buttonCalls s.trace ++
          es.map (fun e => (cb, (⟨e.number, decide (e.value = 0)⟩ : ButtonChangeEvent))) ∧
      axisCalls (s.run (es.map ReadResult.stored)).2.trace = axisCalls s.trace := by
  induction es with
  | nil => intro s _ _ _; exact ⟨rfl, by simp [Joystick.run], rfl⟩
  | cons e es ih =>
    intro s hint hcb hes
    obtain ⟨hk, hnum⟩ := hes e (List.mem_cons_self _ _)
    have hna : ¬ maskedType e = JS_EVENT_AXIS := by
      rw [hk]; exact JS_EVENT_AXIS_ne_BUTTON.symm
    have hin : indexInRange s e := ⟨fun _ => hnum, fun h => absurd h hna⟩
    obtain ⟨hlb, _⟩ := dispatch_lengths s e
    obtain ⟨hcb1, _, hint1, _⟩ := dispatch_frame s e
    obtain ⟨hc, hbc, hac⟩ := ih (s.dispatch e).2 (hint1.trans hint) (hcb1.trans hcb)
      (fun e1 h1 => by rw [hlb]; exact hes e1 (List.mem_cons_of_mem _ h1))
    rw [run_stored_cons s e es hint hin]
    refine ⟨hc, ?_, ?_⟩
    · rw [hbc, dispatch_buttonCalls, if_pos ⟨hk, hnum⟩, hcb]
      simp
    · rw [hac, dispatch_axisCalls, if_neg (fun h => hna h.1)]
      simp

/-! ## Claims, continued -/

/-- Witness for C1 on the session of a device with two axes and four buttons: after
a press of button 2 (type 0x01, raw value 0) followed by an init event announcing it
released (type 0x81, raw value 1), `getButtonValue 2` is `false`; with the two events
in the other order it is `true`. -/
theorem getButtonValue_reflects_latest_event_witness :
    ((exampleSession.run ([pressButton2, releaseButton2].map ReadResult.stored)).1 =
        Control.continue ∧
      ((exampleSession.run
        ([pressButton2, releaseButton2].map ReadResult.stored)).2.getButtonValue 2).1 =
          Except.ok false) ∧
    ((exampleSession.run ([releaseButton2, pressButton2].map ReadResult.stored)).1 =
        Control.continue ∧
      ((exampleSession.run
        ([releaseButton2, pressButton2].map ReadResult.stored)).2.getButtonValue 2).1 =
          Except.ok true) :=
  ⟨getButtonValue_reflects_latest_event Target.linuxX86_64 "/dev/input/js2" 3 "" 2 4
      exampleSession (by rfl) ⟨rfl, rfl⟩ [pressButton2, releaseButton2] (by decide) (by decide)
      2 (by decide),
    getButtonValue_reflects_latest_event Target.linuxX86_64 "/dev/input/js2" 3 "" 2 4
      exampleSession (by rfl) ⟨rfl, rfl⟩ [releaseButton2, pressButton2] (by decide) (by decide)
      2 (by decide)⟩

/-- Witness for C2 on the session of a device with two axes and four buttons: after
the init event announcing axis 0 at 512 (type 0x82), a button event, a move of axis 0
to -12000 (type 0x02) and further button and unknown events, `getAxisValue 0` is
-12000; when the init event comes last instead, it is 512. -/
theorem getAxisValue_reflects_latest_event_witness :
    ((exampleSession.run
        ([initAxis0, releaseButton2, moveAxis0, pressButton2, unknownEvent].map
          ReadResult.stored)).1 = Control.continue ∧
      ((exampleSession.run
        ([initAxis0, releaseButton2, moveAxis0, pressButton2, unknownEvent].map
          ReadResult.stored)).2.getAxisValue 0).1 = Except.ok (-12000)) ∧
    ((exampleSession.run ([moveAxis0, pressButton2, initAxis0].map ReadResult.stored)).1 =
        Control.continue ∧
      ((exampleSession.run
        ([moveAxis0, pressButton2, initAxis0].map ReadResult.stored)).2.getAxisValue 0).1 =
          Except.ok 512) :=
  ⟨getAxisValue_reflects_latest_event Target.linuxX86_64 "/dev/input/js2" 3 "" 2 4
      exampleSession (by rfl) ⟨rfl, rfl⟩
      [initAxis0, releaseButton2, moveAxis0, pressButton2, unknownEvent] (by decide) (by decide)
      0 (by decide),
    getAxisValue_reflects_latest_event Target.linuxX86_64 "/dev/input/js2" 3 "" 2 4
      exampleSession (by rfl) ⟨rfl, rfl⟩ [moveAxis0, pressButton2, initAxis0] (by decide)
      (by decide) 0 (by decide)⟩

/-- C4: for every session state and every outcome of the read that leaves an event
of unknown kind in `event` (a stored event whose masked type is neither button nor
axis, or a failed read, which leaves the zeroed event in place), one iteration of the
reader leaves both snapshots unchanged and invokes neither callback; when no
interruption has been requested it ends with the loop continuing. -/
theorem unknown_event_is_skipped (s : Joystick) (r : ReadResult)
    (hr : ∀ e, r = ReadResult.stored e →
      maskedType e ≠ JS_EVENT_BUTTON ∧ maskedType e ≠ JS_EVENT_AXIS) :
    (s.runIteration r).2._buttonValues = s._buttonValues ∧
    (s.runIteration r).2._axisValues = s._axisValues ∧
    buttonCalls (s.runIteration r).2.trace = buttonCalls s.trace ∧
    axisCalls (s.runIteration r).2.trace = axisCalls s.trace ∧
    (s.interruptRequested = false → (s.runIteration r).1 = Control.continue) := by
  rcases runIteration_cases s r with
    ⟨hi, hsr⟩ | ⟨hi, s1, e1, hsr, hs1b, hs1a, _, _, _, hbc, hac, he1⟩
  · rw [hsr]
    refine ⟨rfl, rfl, rfl, rfl, fun h => ?_⟩
    rw [hi] at h; cases h
  · have hunk : maskedType e1 ≠ JS_EVENT_BUTTON ∧ maskedType e1 ≠ JS_EVENT_AXIS := by
      cases r with
      | stored e => rw [he1]; exact hr e rfl
      | failed txt =>
        subst he1
        have hz : ∀ k : Nat, k ≠ 0 → maskedType js_event.zeroed ≠ k := fun k hk h =>
          hk (h.symm.trans maskedType_zeroed)
        exact ⟨hz _ (by decide), hz _ (by decide)⟩
    rw [hsr, dispatch_unknown s1 e1 hunk.1 hunk.2]
    refine ⟨hs1b, hs1a, ?_, ?_, fun _ => rfl⟩
    · simp [buttonCalls_append, buttonCalls, hbc]
    · simp [axisCalls_append, axisCalls, hac]

/-- Witness for C4: an event of type 0x04 processed by a running four-button session. -/
theorem unknown_event_is_skipped_witness :
    (exampleSession.runIteration (ReadResult.stored unknownEvent)).2._buttonValues =
      exampleSession._buttonValues ∧
    (exampleSession.runIteration (ReadResult.stored unknownEvent)).2._axisValues =
      exampleSession._axisValues ∧
    buttonCalls (exampleSession.runIteration (ReadResult.stored unknownEvent)).2.trace =
      buttonCalls exampleSession.trace ∧
    axisCalls (exampleSession.runIteration (ReadResult.stored unknownEvent)).2.trace =
      axisCalls exampleSession.trace ∧
    (exampleSession.interruptRequested = false →
      (exampleSession.runIteration (ReadResult.stored unknownEvent)).1 = Control.continue) :=
  unknown_event_is_skipped exampleSession (ReadResult.stored unknownEvent)
    (fun e h => by
      injection h with h
      subst h
      exact ⟨by decide, by decide⟩)

/-- C5: in a running session in which the button callback `cb` has been registered
with `setButtonCallback`, the reader processing `N` button events with in-range
indices (distinct or not) invokes `cb` exactly `N` times, the k-th invocation
receiving the k-th event's number and the pressed state `raw value = 0`, in event
order, and it does not invoke the axis callback. -/
theorem button_callback_invoked_per_event (s0 : Joystick) (cb : Nat) (es : List js_event)
    (hint : s0.interruptRequested = false)
    (hes : ∀ e ∈ es, maskedType e = JS_EVENT_BUTTON ∧ e.number < s0._buttonValues.length) :
    ((s0.setButtonCallback (some cb)).run (es.map ReadResult.stored)).1 = Control.continue ∧
    buttonCalls ((s0.setButtonCallback (some cb)).run (es.map ReadResult.stored)).2.trace =
      buttonCalls s0.trace ++
        es.map (fun e => (cb, (⟨e.number, decide (e.value = 0)⟩ : ButtonChangeEvent))) ∧
    axisCalls ((s0.setButtonCallback (some cb)).run (es.map ReadResult.stored)).2.trace =
      axisCalls s0.trace :=
  run_buttonCalls_registered cb es (s0.setButtonCallback (some cb)) hint rfl hes

/-- Witness for C5: callback 7 registered on the four-button session, then a release
and a press of button 2. -/
theorem button_callback_invoked_per_event_witness :
    buttonCalls ((exampleSession.setButtonCallback (some 7)).run
      ([releaseButton2, pressButton2].map ReadResult.stored)).2.trace =
      [(7, ⟨2, false⟩), (7, ⟨2, true⟩)] :=
  (button_callback_invoked_per_event exampleSession 7 [releaseButton2, pressButton2] rfl
    (by decide)).2.1

/-- C6: passing the null pointer to `setButtonCallback` (respectively
`setAxisCallback`) yields the same session state as `clearButtonCallback`
(respectively `clearAxisCallback`); after the clear, whatever the reader goes on to
process, the trace gains no invocation of a button (respectively axis) callback; and
control outcome and snapshots are those of any session `t` that started from the same
snapshots and interruption flag, such as one on which no callback was ever set. -/
theorem cleared_callback_is_not_invoked (s t : Joystick) (rs : List ReadResult)
    (hb : s._buttonValues = t._buttonValues) (ha : s._axisValues = t._axisValues)
    (hi : s.interruptRequested = t.interruptRequested) :
    s.setButtonCallback none = s.clearButtonCallback ∧
    s.setAxisCallback none = s.clearAxisCallback ∧
    buttonCalls (s.clearButtonCallback.run rs).2.trace = buttonCalls s.trace ∧
    axisCalls (s.clearAxisCallback.run rs).2.trace = axisCalls s.trace ∧
    ((s.clearButtonCallback.run rs).1 = (t.run rs).1 ∧
      (s.clearButtonCallback.run rs).2._buttonValues = (t.run rs).2._buttonValues ∧
      (s.clearButtonCallback.run rs).2._axisValues = (t.run rs).2._axisValues) ∧
    ((s.clearAxisCallback.run rs).1 = (t.run rs).1 ∧
      (s.clearAxisCallback.run rs).2._buttonValues = (t.run rs).2._buttonValues ∧
      (s.clearAxisCallback.run rs).2._axisValues = (t.run rs).2._axisValues) := by
  refine ⟨rfl, rfl, run_buttonCalls_none rs s.clearButtonCallback rfl,
    run_axisCalls_none rs s.clearAxisCallback rfl, ?_, ?_⟩
  · obtain ⟨h1, h2, h3, _⟩ := run_congr rs s.clearButtonCallback t hb ha hi
    exact ⟨h1, h2, h3⟩
  · obtain ⟨h1, h2, h3, _⟩ := run_congr rs s.clearAxisCallback t hb ha hi
    exact ⟨h1, h2, h3⟩

/-- Witness for C6: callback 7 is registered and then cleared; a failed read, a
release and a press of button 2 follow; no button callback invocation is recorded. -/
theorem cleared_callback_is_not_invoked_witness :
    buttonCalls (((exampleSession.setButtonCallback (some 7)).clearButtonCallback).run
      [ReadResult.failed "EIO", ReadResult.stored releaseButton2,
        ReadResult.stored pressButton2]).2.trace = [] :=
  (cleared_callback_is_not_invoked (exampleSession.setButtonCallback (some 7)) exampleSession
    [ReadResult.failed "EIO", ReadResult.stored releaseButton2, ReadResult.stored pressButton2]
    rfl rfl rfl).2.2.1

/-- C7, the code at the failing input: the constructor returns the four-button
session, the reader receives a well-formed button event numbered 7, and the
iteration performs the write `_buttonValues[7]` although 7 is not below the length
4; the iteration ends in undefined behaviour. -/
theorem reader_writes_outside_snapshot :
    Joystick.construct Target.linuxX86_64 "/dev/input/js2" 3 "" (some 2) (some 4) =
      Except.ok exampleSession ∧
    pressButton7.inRange ∧
    ¬ pressButton7.number < exampleSession._buttonValues.length ∧
    exampleSession.runIteration (ReadResult.stored pressButton7) =
      (Control.undefined,
        { exampleSession with trace := [Effect.write Snapshot.buttons 7 false] }) :=
  ⟨by rfl, by decide, by decide, by rfl⟩

/-- How the destructor ends, for every state and every result of `close`: it
completes exactly when `close` did not return -1; otherwise `std::terminate` is
called with the `JoystickException` of the `throw` statement in flight. In both cases
interruption of the reader thread has been requested and snapshots and callback slots
are as before. -/
theorem destructor_outcome (s : Joystick) (closeResult : Int) (errnoText : String) :
    ((s.destructor closeResult errnoText).1 = DestructorOutcome.completed ↔
      closeResult ≠ -1) ∧
    ((s.destructor closeResult errnoText).1 =
        DestructorOutcome.terminate (Exception.JoystickException
          ("Could not close file descriptor: error " ++ errnoText)) ↔ closeResult = -1) ∧
    (s.destructor closeResult errnoText).2.interruptRequested = true ∧
    (s.destructor closeResult errnoText).2._buttonValues = s._buttonValues ∧
    (s.destructor closeResult errnoText).2._axisValues = s._axisValues ∧
    (s.destructor closeResult errnoText).2._buttonCallback = s._buttonCallback ∧
    (s.destructor closeResult errnoText).2._axisCallback = s._axisCallback := by
  unfold Joystick.destructor
  by_cases h : closeResult = -1
  · simp [h]
  · simp [h]

/-- C8, the code at the failing input: when `close` returns -1 the destructor does
not complete; its `throw` statement runs inside the implicitly `noexcept` destructor
and `std::terminate` is called with the `JoystickException` in flight. -/
theorem destructor_terminates_when_close_fails :
    (exampleSession.destructor (-1) "Bad file descriptor").1 ≠ DestructorOutcome.completed ∧
    (exampleSession.destructor (-1) "Bad file descriptor").1 =
      DestructorOutcome.terminate (Exception.JoystickException
        "Could not close file descriptor: error Bad file descriptor") := by
  constructor
  · intro h; cases h
  · rfl

theorem toSizeT_charOfByte (t : Target) (b : Nat) (hbits : 8 ≤ t.sizeBits)
    (hb : b < 128 ∨ (t.charSigned = false ∧ b < 256)) :
    toSizeT t (charOfByte t b) = b := by
  have hlt : b < 256 := by omega
  have hchar : charOfByte t b = (b : Int) := by
    unfold charOfByte
    rw [Nat.mod_eq_of_lt hlt]
    rcases hb with hb | ⟨hc, _⟩
    · have : ¬ 128 ≤ b := by omega
      simp only [this, decide_False, Bool.and_false, Bool.false_eq_true, if_false]
      omega
    · simp only [hc, Bool.false_and, Bool.false_eq_true, if_false]
      omega
  have hpow : (256 : Int) ≤ (2 : Int) ^ t.sizeBits := by
    calc (256 : Int) = (2 : Int) ^ 8 := by norm_num
      _ ≤ (2 : Int) ^ t.sizeBits := pow_le_pow_right₀ (by norm_num) hbits
  unfold toSizeT
  rw [hchar, Int.emod_eq_of_lt (by omega) (by omega)]
  simp

theorem vectorBool_small (t : Target) (n : Nat) (hbits : t.sizeBits = 64)
    (halloc : 510 ≤ t.maxAllocBytes) (hn : n < 256) :
    vectorBool t n = Except.ok (List.replicate n false) := by
  unfold vectorBool
  by_cases h0 : n = 0
  · rw [if_pos h0, h0]; rfl
  · rw [if_neg h0]
    have hw : nword t n = (n + 63) / 64 := by
      unfold nword
      rw [hbits]
      have : (n + 64 - 1) % 2 ^ 64 = n + 63 := by omega
      rw [this]
    have ha : allocate t (t.sizeBits / 8) (nword t n) = Except.ok () := by
      unfold allocate Target.ptrdiffMax
      rw [hw, hbits]
      have h1 : ¬ (n + 63) / 64 > (2 ^ (64 - 1) - 1) / (64 / 8) := by
        norm_num; omega
      have h2 : ¬ (n + 63) / 64 * (64 / 8) > t.maxAllocBytes := by omega
      rw [if_neg h1, if_neg h2]
    rw [ha]

theorem vectorInt16_small (t : Target) (n : Nat) (hbits : t.sizeBits = 64)
    (halloc : 510 ≤ t.maxAllocBytes) (hn : n < 256) :
    vectorInt16 t n = Except.ok (List.replicate n 0) := by
  unfold vectorInt16 Target.ptrdiffMax
  rw [hbits]
  have h1 : ¬ n > (2 ^ (64 - 1) - 1) / 2 := by norm_num; omega
  rw [if_neg h1]
  by_cases h0 : n = 0
  · rw [if_pos h0, h0]; rfl
  · rw [if_neg h0]
    have ha : allocate t 2 n = Except.ok () := by
      unfold allocate Target.ptrdiffMax
      rw [hbits]
      have h2 : ¬ n * 2 > t.maxAllocBytes := by omega
      rw [if_neg h1, if_neg h2]
    rw [ha]

/-- Where the signedness of `char` does not matter: on a target with a 64-bit
`size_t`, counts below 128, or any count when `char` is unsigned, give snapshots of
exactly the queried lengths, all `false` and all `0`. -/
theorem construct_sizes_snapshots (t : Target) (path : String) (fd : Int) (errnoText : String)
    (axes buttons : Nat) (hfd : fd ≠ -1) (hbits : t.sizeBits = 64)
    (halloc : 510 ≤ t.maxAllocBytes)
    (ha : axes < 128 ∨ (t.charSigned = false ∧ axes < 256))
    (hb : buttons < 128 ∨ (t.charSigned = false ∧ buttons < 256)) :
    Joystick.construct t path fd errnoText (some axes) (some buttons) =
      Except.ok { _joystick_fd := fd
                  _buttonValues := List.replicate buttons false
                  _axisValues := List.replicate axes 0
                  _buttonCallback := none
                  _axisCallback := none
                  interruptRequested := false
                  trace := [] } := by
  have hal : axes < 256 := by omega
  have hbl : buttons < 256 := by omega
  have h8 : 8 ≤ t.sizeBits := by omega
  unfold Joystick.construct
  rw [if_neg hfd]
  dsimp only
  rw [toSizeT_charOfByte t axes h8 ha, toSizeT_charOfByte t buttons h8 hb,
    vectorBool_small t buttons hbits halloc hbl, vectorInt16_small t axes hbits halloc hal]

/-- C9, the code at the failing inputs, on a target whose plain `char` is signed.
A device reporting 2 axes and 200 buttons: the count read into a `char` is -56 and
converts to the vector size 2^64 - 56; the word count of `std::vector<bool>` wraps
around to 0, and the constructor returns a session whose button snapshot reports the
size 2^64 - 56 instead of 200. A device reporting 2 axes and 128 buttons: the
constructor throws `std::bad_alloc`. -/
theorem construct_missizes_signed_char_counts :
    charOfByte Target.linuxX86_64 200 = -56 ∧
    toSizeT Target.linuxX86_64 (-56) = 2 ^ 64 - 56 ∧
    nword Target.linuxX86_64 (2 ^ 64 - 56) = 0 ∧
    (∃ s, Joystick.construct Target.linuxX86_64 "/dev/input/js2" 3 "" (some 2) (some 200) =
        Except.ok s ∧
      s._buttonValues.length = 2 ^ 64 - 56 ∧ s._buttonValues.length ≠ 200) ∧
    Joystick.construct Target.linuxX86_64 "/dev/input/js2" 3 "" (some 2) (some 128) =
      Except.error Exception.bad_alloc := by
  refine ⟨by decide, by decide, by decide, ?_, by rfl⟩
  refine ⟨{ _joystick_fd := 3
            _buttonValues := List.replicate (2 ^ 64 - 56) false
            _axisValues := [0, 0]
            _buttonCallback := none
            _axisCallback := none
            interruptRequested := false
            trace := [] }, by rfl, ?_, ?_⟩
  · exact List.length_replicate _ _
  · rw [List.length_replicate]; decide

/-- C10, the code at the failing input: the write of the reader to the button
snapshot, its write to the axis snapshot, and the reads of `getButtonValue` and
`getAxisValue` are all performed with `_mutex` not held. -/
theorem snapshot_accesses_without_mutex :
    (exampleSession.runIteration (ReadResult.stored pressButton2)).2.trace =
      [Effect.write Snapshot.buttons 2 false] ∧
    (exampleSession.runIteration (ReadResult.stored moveAxis0)).2.trace =
      [Effect.write Snapshot.axes 0 false] ∧
    (exampleSession.getButtonValue 2).2.trace = [Effect.read Snapshot.buttons 2 false] ∧
    (exampleSession.getAxisValue 0).2.trace = [Effect.read Snapshot.axes 0 false] :=
  ⟨by rfl, by rfl, by rfl, by rfl⟩

end joy
